import Mathlib

/-!
Shallow embedding of the ride_engine repository's Ride Matching & Lifecycle
Coordination core, with theorems checking the natural-language specification
against the code.

Conventions of the embedding:
* Go `time.Time` values become integer timestamps (`Int`, in seconds).
* Go `float64` coordinates become rationals (`Rat`); Go `==` on floats is
  rational equality (all literals in play are exactly representable).
* Go `int64` identifiers become `Int`.
* Fallible Go functions returning `error` become `Except String α`, carrying
  the literal error message of the source.
* The MongoDB rides collection becomes a `List RideDocument`; `FindOne`,
  `UpdateOne` and `Find` are modelled over that list.  The Mongo server's
  spherical distance function (`$nearSphere`) is an external collaborator and
  is passed in as a parameter.
* Redis becomes an association list of (key, value, expiry) entries; a `Get`
  at time `now` observes the TTL (an entry whose expiry has passed behaves as
  absent, like `redis.Nil`).
* The Postgres tables (`online_drivers`, `otp_records`) become Lean lists of
  row structures; the GORM query chains are modelled as list operations.
-/

namespace RideEngine

/-! Statuses from internal/ride_engine/domain/models.go.  `RideStatus` is a
Go string type, so the embedding keeps statuses as strings; the string
"pending" has no Go constant but appears literally in the MongoDB query of
GetNearbyRequestedRides. -/

def RideStatusRequested : String := "requested"
def RideStatusAccepted : String := "accepted"
def RideStatusStarted : String := "started"
def RideStatusCompleted : String := "completed"
def RideStatusCancelled : String := "cancelled"
def RideStatusPendingLiteral : String := "pending"

/-- Ride from internal/ride_engine/domain/models.go (the embedded
`PickupLocation`/`DropoffLocation` mirror the four coordinate fields and are
not duplicated here). -/
structure Ride where
  id : Int
  customerID : Int
  driverID : Option Int
  pickupLat : Rat
  pickupLng : Rat
  dropoffLat : Rat
  dropoffLng : Rat
  status : String
  fare : Option Rat
  requestedAt : Int
  acceptedAt : Option Int
  startedAt : Option Int
  completedAt : Option Int
  cancelledAt : Option Int
  deriving Repr, DecidableEq

/-- Ride.Accept from domain/models.go: legal only when status is exactly
"requested"; sets driver id, status accepted and the accepted timestamp. -/
def Ride.Accept (r : Ride) (driverID : Int) (now : Int) : Except String Ride :=
  if r.status ≠ RideStatusRequested then
    .error "ride is not in requested status"
  else
    .ok { r with driverID := some driverID
                 status := RideStatusAccepted
                 acceptedAt := some now }

/-- Ride.Start from domain/models.go. -/
def Ride.Start (r : Ride) (now : Int) : Except String Ride :=
  if r.status ≠ RideStatusAccepted then
    .error "ride must be accepted before starting"
  else
    .ok { r with status := RideStatusStarted, startedAt := some now }

/-- Ride.Complete from domain/models.go. -/
def Ride.Complete (r : Ride) (now : Int) : Except String Ride :=
  if r.status ≠ RideStatusStarted then
    .error "ride must be started before completing"
  else
    .ok { r with status := RideStatusCompleted, completedAt := some now }

/-- Ride.Cancel from domain/models.go: refused only on a completed ride; the
driver id field is left untouched. -/
def Ride.Cancel (r : Ride) (now : Int) : Except String Ride :=
  if r.status = RideStatusCompleted then
    .error "cannot cancel completed ride"
  else
    .ok { r with status := RideStatusCancelled, cancelledAt := some now }

/-- RequestRide's ride construction from service/ride_service.go (the mongo
repository then assigns the auto-incremented id, passed here as `id`). -/
def requestRide (customerID : Int) (pickupLat pickupLng dropoffLat dropoffLng : Rat)
    (now : Int) (id : Int) : Ride :=
  { id := id
    customerID := customerID
    driverID := none
    pickupLat := pickupLat
    pickupLng := pickupLng
    dropoffLat := dropoffLat
    dropoffLng := dropoffLng
    status := RideStatusRequested
    fare := none
    requestedAt := now
    acceptedAt := none
    startedAt := none
    completedAt := none
    cancelledAt := none }

/-! Reachability of a ride value under the domain lifecycle operations. -/

/-- One domain lifecycle transition attempt. -/
inductive RideOp where
  | acceptOp (driverID : Int)
  | startOp
  | completeOp
  | cancelOp
  deriving Repr, DecidableEq

/-- Apply one lifecycle operation at time `now`. -/
def applyRideOp (now : Int) (op : RideOp) (r : Ride) : Except String Ride :=
  match op with
  | .acceptOp driverID => r.Accept driverID now
  | .startOp => r.Start now
  | .completeOp => r.Complete now
  | .cancelOp => r.Cancel now

/-- Rides reachable from a fresh RequestRide by successful lifecycle
transitions. -/
inductive ReachableRide : Ride → Prop where
  | requested (customerID : Int) (pickupLat pickupLng dropoffLat dropoffLng : Rat)
      (now id : Int) :
      ReachableRide (requestRide customerID pickupLat pickupLng dropoffLat dropoffLng now id)
  | step (r r2 : Ride) (now : Int) (op : RideOp) :
      ReachableRide r → applyRideOp now op r = .ok r2 → ReachableRide r2

/-- Statuses the spec associates with an assigned driver. -/
def driverAssignedStatuses : List String :=
  [RideStatusAccepted, RideStatusStarted, RideStatusCompleted]

/-- Concrete reachable ride for the C4 counterexample: requested at t=100,
accepted by driver 2 at t=110, cancelled at t=120.  The driver id survives
cancellation because Ride.Cancel never clears it. -/
def cancelledWithDriver : Ride :=
  { id := 1
    customerID := 1
    driverID := some 2
    pickupLat := 0
    pickupLng := 0
    dropoffLat := 0
    dropoffLng := 0
    status := RideStatusCancelled
    fare := none
    requestedAt := 100
    acceptedAt := some 110
    startedAt := none
    completedAt := none
    cancelledAt := some 120 }

theorem cancelledWithDriver_reachable : ReachableRide cancelledWithDriver := by
  have h0 : ReachableRide (requestRide 1 0 0 0 0 100 1) :=
    ReachableRide.requested 1 0 0 0 0 100 1
  have h1 : ReachableRide
      { id := 1, customerID := 1, driverID := some 2,
        pickupLat := 0, pickupLng := 0, dropoffLat := 0, dropoffLng := 0,
        status := RideStatusAccepted, fare := none, requestedAt := 100,
        acceptedAt := some 110, startedAt := none, completedAt := none,
        cancelledAt := none } :=
    ReachableRide.step _ _ 110 (.acceptOp 2) h0 rfl
  exact ReachableRide.step _ _ 120 .cancelOp h1 rfl

/-- C4: the claim as stated — "driver id is non-null iff status is in
accepted/started/completed" for every reachable ride — is false: the ride
cancelledWithDriver (requested, accepted by driver 2, then cancelled) is
reachable, has a driver id, and has status cancelled, because Ride.Cancel
sets the status without clearing the driver field. -/
theorem cancelledWithDriver_breaks_driver_iff :
    ReachableRide cancelledWithDriver ∧
    cancelledWithDriver.driverID.isSome = true ∧
    driverAssignedStatuses.contains cancelledWithDriver.status = false :=
  ⟨cancelledWithDriver_reachable, by decide, by decide⟩

/-- C4 (amended): for every reachable ride, status in
accepted/started/completed implies the driver id is set, and a set driver id
implies status in accepted/started/completed or cancelled (cancellation of
an assigned ride keeps the driver id). -/
theorem reachableRide_driver_invariant :
    ∀ r : Ride, ReachableRide r →
      (r.status ∈ driverAssignedStatuses → r.driverID.isSome = true) ∧
      (r.driverID.isSome = true →
        r.status ∈ driverAssignedStatuses ∨ r.status = RideStatusCancelled) := by
  intro r hr
  induction hr with
  | requested customerID pickupLat pickupLng dropoffLat dropoffLng now id =>
      constructor
      · intro hmem
        exact absurd (show RideStatusRequested ∈ driverAssignedStatuses from hmem)
          (by decide)
      · intro hsome
        exact absurd (show (none : Option Int).isSome = true from hsome) (by decide)
  | step r r2 now op hr heq ih =>
      cases op with
      | acceptOp driverID =>
          simp only [applyRideOp, Ride.Accept] at heq
          split at heq
          · exact absurd heq (by simp)
          · cases heq
            constructor
            · intro _; rfl
            · intro _; left
              exact (show RideStatusAccepted ∈ driverAssignedStatuses by decide)
      | startOp =>
          simp only [applyRideOp, Ride.Start] at heq
          split at heq
          · exact absurd heq (by simp)
          · next hstat =>
            cases heq
            have hacc : r.status = RideStatusAccepted := by
              by_contra hc; exact hstat hc
            constructor
            · intro _
              exact ih.1 (by rw [hacc]; decide)
            · intro _; left
              exact (show RideStatusStarted ∈ driverAssignedStatuses by decide)
      | completeOp =>
          simp only [applyRideOp, Ride.Complete] at heq
          split at heq
          · exact absurd heq (by simp)
          · next hstat =>
            cases heq
            have hst : r.status = RideStatusStarted := by
              by_contra hc; exact hstat hc
            constructor
            · intro _
              exact ih.1 (by rw [hst]; decide)
            · intro _; left
              exact (show RideStatusCompleted ∈ driverAssignedStatuses by decide)
      | cancelOp =>
          simp only [applyRideOp, Ride.Cancel] at heq
          split at heq
          · exact absurd heq (by simp)
          · cases heq
            constructor
            · intro hmem
              exact absurd (show RideStatusCancelled ∈ driverAssignedStatuses from hmem)
                (by decide)
            · intro hsome
              right; rfl

/-- Witness for reachableRide_driver_invariant at the concrete reachable ride
cancelledWithDriver. -/
theorem reachableRide_driver_invariant_witness :
    (cancelledWithDriver.status ∈ driverAssignedStatuses →
      cancelledWithDriver.driverID.isSome = true) ∧
    (cancelledWithDriver.driverID.isSome = true →
      cancelledWithDriver.status ∈ driverAssignedStatuses ∨
        cancelledWithDriver.status = RideStatusCancelled) :=
  reachableRide_driver_invariant cancelledWithDriver cancelledWithDriver_reachable

/-! MongoDB ride repository,
internal/ride_engine/repository/mongodb/ride_mongodb.go.  The collection is
a list of documents; `FindOne`/`UpdateOne` act on the first document whose
ride_id matches.  The embedded GeoJSON `pickup_location` mirrors
pickupLat/pickupLng exactly (toRideDocument writes both from the same
fields), so it is not duplicated. -/

/-- RideDocument from ride_mongodb.go. -/
structure RideDocument where
  rideID : Int
  customerID : Int
  driverID : Option Int
  pickupLat : Rat
  pickupLng : Rat
  dropoffLat : Rat
  dropoffLng : Rat
  status : String
  fare : Option Rat
  requestedAt : Int
  acceptedAt : Option Int
  startedAt : Option Int
  completedAt : Option Int
  cancelledAt : Option Int
  createdAt : Int
  updatedAt : Int
  deriving Repr, DecidableEq

/-- toRideDocument from ride_mongodb.go: UpdatedAt is stamped with now;
CreatedAt is stamped only for a fresh ride (ride id still zero). -/
def toRideDocument (now : Int) (ride : Ride) : RideDocument :=
  { rideID := ride.id
    customerID := ride.customerID
    driverID := ride.driverID
    pickupLat := ride.pickupLat
    pickupLng := ride.pickupLng
    dropoffLat := ride.dropoffLat
    dropoffLng := ride.dropoffLng
    status := ride.status
    fare := ride.fare
    requestedAt := ride.requestedAt
    acceptedAt := ride.acceptedAt
    startedAt := ride.startedAt
    completedAt := ride.completedAt
    cancelledAt := ride.cancelledAt
    createdAt := if ride.id = 0 then now else 0
    updatedAt := now }

/-- toRideDomain from ride_mongodb.go. -/
def toRideDomain (doc : RideDocument) : Ride :=
  { id := doc.rideID
    customerID := doc.customerID
    driverID := doc.driverID
    pickupLat := doc.pickupLat
    pickupLng := doc.pickupLng
    dropoffLat := doc.dropoffLat
    dropoffLng := doc.dropoffLng
    status := doc.status
    fare := doc.fare
    requestedAt := doc.requestedAt
    acceptedAt := doc.acceptedAt
    startedAt := doc.startedAt
    completedAt := doc.completedAt
    cancelledAt := doc.cancelledAt }

/-- FindOne on the rides collection with filter ride_id = id. -/
def findRideDoc (docs : List RideDocument) (id : Int) : Option RideDocument :=
  docs.find? (fun d => d.rideID == id)

/-- RideMongoRepository.GetByID. -/
def GetByID (docs : List RideDocument) (id : Int) : Except String Ride :=
  match findRideDoc docs id with
  | none => .error "ride not found"
  | some d => .ok (toRideDomain d)

/-- UpdateOne: rewrite the first document whose ride_id matches. -/
def updateFirstDoc (docs : List RideDocument) (id : Int)
    (f : RideDocument → RideDocument) : List RideDocument :=
  match docs with
  | [] => []
  | d :: rest =>
      if d.rideID == id then f d :: rest
      else d :: updateFirstDoc rest id f

/-- RideMongoRepository.Update: UpdateOne with filter ride_id = ride.ID and a
$set of driver_id, status, fare, the four transition timestamps and
updated_at.  The filter carries no status condition, so the write is
unconditional on the ride's current status; MatchedCount = 0 becomes
ErrRideNotFound. -/
def Update (docs : List RideDocument) (now : Int) (ride : Ride) :
    Except String (List RideDocument) :=
  let doc := toRideDocument now ride
  match findRideDoc docs ride.id with
  | none => .error "ride not found"
  | some _ =>
      .ok (updateFirstDoc docs ride.id (fun d =>
        { d with driverID := doc.driverID
                 status := doc.status
                 fare := doc.fare
                 acceptedAt := doc.acceptedAt
                 startedAt := doc.startedAt
                 completedAt := doc.completedAt
                 cancelledAt := doc.cancelledAt
                 updatedAt := now }))

/-! RideService, internal/ride_engine/service/ride_service.go.  Each
lifecycle call is a GetByID read, an in-memory status check plus domain
transition, and then an Update write. -/

/-- Everything RideService.AcceptRide does before its storage write: the
GetByID read, the in-memory status guard, and the in-memory Ride.Accept.
The value returned is the ride state the subsequent Update will write. -/
def acceptRideReadPhase (docs : List RideDocument) (now : Int)
    (rideID driverID : Int) : Except String Ride :=
  match GetByID docs rideID with
  | .error e => .error e
  | .ok ride =>
      if ride.status = RideStatusAccepted ∨ ride.status = RideStatusStarted ∨
          ride.status = RideStatusCompleted then
        .error "ride is cannot be accepted"
      else
        ride.Accept driverID now

/-- RideService.AcceptRide: the read phase followed by the Update write. -/
def AcceptRide (docs : List RideDocument) (now : Int) (rideID driverID : Int) :
    Except String (List RideDocument) :=
  match acceptRideReadPhase docs now rideID driverID with
  | .error e => .error e
  | .ok ride2 => Update docs now ride2

/-- RideService.StartRide. -/
def StartRide (docs : List RideDocument) (now : Int) (rideID : Int) :
    Except String (List RideDocument) :=
  match GetByID docs rideID with
  | .error e => .error e
  | .ok ride =>
      if ride.status ≠ RideStatusAccepted then
        .error "ride is cannot be started"
      else
        match ride.Start now with
        | .error e => .error e
        | .ok ride2 => Update docs now ride2

/-- RideService.CompleteRide.  The source's guard reads
`if ride.Status != domain.RideStatusCompleted` — it rejects every ride that
is not already completed (compare StartRide's guard against its own target
state). -/
def CompleteRide (docs : List RideDocument) (now : Int) (rideID : Int) :
    Except String (List RideDocument) :=
  match GetByID docs rideID with
  | .error e => .error e
  | .ok ride =>
      if ride.status ≠ RideStatusCompleted then
        .error "ride is cannot be completed"
      else
        match ride.Complete now with
        | .error e => .error e
        | .ok ride2 => Update docs now ride2

/-- RideService.CancelRide. -/
def CancelRide (docs : List RideDocument) (now : Int) (rideID : Int) :
    Except String (List RideDocument) :=
  match GetByID docs rideID with
  | .error e => .error e
  | .ok ride =>
      if ride.status = RideStatusCompleted ∨ ride.status = RideStatusCancelled then
        .error "ride is cannot be cancelled"
      else
        match ride.Cancel now with
        | .error e => .error e
        | .ok ride2 => Update docs now ride2

/-- Discriminator for Except results that avoids stating a negation. -/
def isOkE {α : Type} (e : Except String α) : Bool :=
  match e with
  | .ok _ => true
  | .error _ => false

/-! C1: the concurrent-accept race.  One requested ride, two drivers (7 and
8).  Both calls run their read phase against the same store snapshot, then
both writes are applied; the Update filter matches on ride_id alone, so the
second write succeeds although the ride is already accepted. -/

/-- Store with the single requested ride the two drivers compete for. -/
def raceDoc0 : RideDocument :=
  { rideID := 1, customerID := 5, driverID := none,
    pickupLat := 10, pickupLng := 20, dropoffLat := 30, dropoffLng := 40,
    status := RideStatusRequested, fare := none, requestedAt := 100,
    acceptedAt := none, startedAt := none, completedAt := none,
    cancelledAt := none, createdAt := 100, updatedAt := 100 }

def raceDocs0 : List RideDocument := [raceDoc0]

/-- Ride value driver 7's read phase computes from the shared snapshot. -/
def rideAcceptedBy7 : Ride :=
  { id := 1, customerID := 5, driverID := some 7,
    pickupLat := 10, pickupLng := 20, dropoffLat := 30, dropoffLng := 40,
    status := RideStatusAccepted, fare := none, requestedAt := 100,
    acceptedAt := some 200, startedAt := none, completedAt := none,
    cancelledAt := none }

/-- Ride value driver 8's read phase computes from the same snapshot. -/
def rideAcceptedBy8 : Ride :=
  { rideAcceptedBy7 with driverID := some 8 }

/-- Store after driver 7's write. -/
def raceDocs1 : List RideDocument :=
  [{ raceDoc0 with
       driverID := some 7
       status := RideStatusAccepted
       acceptedAt := some 200
       updatedAt := 200 }]

/-- Store after driver 8's write overwrites driver 7's. -/
def raceDocs2 : List RideDocument :=
  [{ raceDoc0 with
       driverID := some 8
       status := RideStatusAccepted
       acceptedAt := some 200
       updatedAt := 200 }]

/-- C1: AcceptRide is a read phase followed by an unconditional write, not a
single conditional write, and under the read-read-write-write interleaving
of two concurrent calls on one requested ride both calls succeed: driver 7's
full call succeeds, driver 8's read phase (taken before 7's write landed)
also succeeds, and driver 8's write then also succeeds against the
already-accepted store, silently replacing driver 7 as the assigned driver. -/
theorem acceptRide_race_both_succeed :
    acceptRideReadPhase raceDocs0 200 1 7 = .ok rideAcceptedBy7 ∧
    acceptRideReadPhase raceDocs0 200 1 8 = .ok rideAcceptedBy8 ∧
    AcceptRide raceDocs0 200 1 7 = .ok raceDocs1 ∧
    Update raceDocs1 200 rideAcceptedBy8 = .ok raceDocs2 ∧
    (raceDocs2.map fun d => (d.rideID, d.status, d.driverID)) =
      [(1, RideStatusAccepted, some 8)] := by
  refine ⟨?_, ?_, ?_, ?_, ?_⟩ <;> rfl

/-! C2: accepting a ride whose stored status is "pending". -/

/-- Stored ride in status "pending", the status GetNearbyRequestedRides
surfaces alongside "requested". -/
def pendingDoc : RideDocument :=
  { raceDoc0 with rideID := 2, status := RideStatusPendingLiteral }

/-- C2 (counterexample): AcceptRide on a pending ride does not succeed — the
service guard lets "pending" through but Ride.Accept requires exactly
"requested", so the call fails with its error. -/
theorem acceptRide_pending_fails :
    AcceptRide [pendingDoc] 200 2 9 = .error "ride is not in requested status" := by
  rfl

/-- C2 (amended): Accept is legal only from "requested"; for every stored
ride whose status is "pending" the call fails with "ride is not in requested
status". -/
theorem acceptRide_pending_rejected (docs : List RideDocument)
    (now rideID driverID : Int) (d : RideDocument)
    (hfind : findRideDoc docs rideID = some d)
    (hstat : d.status = RideStatusPendingLiteral) :
    AcceptRide docs now rideID driverID =
      .error "ride is not in requested status" := by
  simp only [AcceptRide, acceptRideReadPhase, GetByID, hfind, toRideDomain,
    Ride.Accept, hstat, RideStatusPendingLiteral, RideStatusAccepted,
    RideStatusStarted, RideStatusCompleted, RideStatusRequested]
  rw [if_neg (by decide :
    ¬("pending" = "accepted" ∨ "pending" = "started" ∨ "pending" = "completed"))]
  rw [if_pos (by decide : ("pending" : String) ≠ "requested")]

/-- Witness for acceptRide_pending_rejected at the concrete pending ride. -/
theorem acceptRide_pending_rejected_witness :
    AcceptRide [pendingDoc] 300 2 11 = .error "ride is not in requested status" :=
  acceptRide_pending_rejected [pendingDoc] 300 2 11 pendingDoc rfl rfl

/-- C3: RideService.CompleteRide can never succeed: its guard rejects every
ride not already in "completed", and a ride already in "completed" is then
rejected by Ride.Complete, which demands "started".  In particular a started
ride — the one state the spec says must complete — fails with "ride is
cannot be completed". -/
theorem completeRide_never_succeeds :
    ∀ (docs : List RideDocument) (now rideID : Int),
      isOkE (CompleteRide docs now rideID) = false := by
  intro docs now rideID
  cases hget : GetByID docs rideID with
  | error e => simp only [CompleteRide, hget, isOkE]
  | ok ride =>
      by_cases hs : ride.status = RideStatusCompleted
      · have hns : ride.status ≠ RideStatusStarted := by rw [hs]; decide
        simp only [CompleteRide, hget, Ride.Complete]
        rw [if_neg (not_not_intro hs), if_pos hns]
        rfl
      · simp only [CompleteRide, hget]
        rw [if_pos hs]
        rfl

/-- Evaluation of CompleteRide at the spec's own legal input: a stored ride
in "started" status is rejected with the service guard's error. -/
def startedDoc : RideDocument :=
  { raceDoc0 with
      rideID := 3
      status := RideStatusStarted
      driverID := some 7
      acceptedAt := some 150
      startedAt := some 160 }

theorem completeRide_started_fails :
    CompleteRide [startedDoc] 200 3 = .error "ride is cannot be completed" := by
  rfl

/-! C5: GetNearbyRequestedRides, ride_mongodb.go.  The Mongo query filters
on status $in [requested, pending], updated_at $gte now - 5 minutes, and
pickup_location $nearSphere with $maxDistance; $nearSphere also orders the
results nearest first.  The store's spherical distance function is an
external collaborator and is taken as the parameter `dist` (query point,
pickup point). -/

/-- The three filter conditions of the GetNearbyRequestedRides query. -/
def nearbyFilter (dist : Rat → Rat → Rat → Rat → Rat) (now : Int)
    (lat lng maxDistanceMeters : Rat) (d : RideDocument) : Bool :=
  (d.status == RideStatusRequested || d.status == RideStatusPendingLiteral)
    && decide (now - 5 * 60 ≤ d.updatedAt)
    && decide (dist lat lng d.pickupLat d.pickupLng ≤ maxDistanceMeters)

/-- RideMongoRepository.GetNearbyRequestedRides: filter, order nearest
first, apply the limit, convert to domain rides. -/
def GetNearbyRequestedRides (dist : Rat → Rat → Rat → Rat → Rat)
    (docs : List RideDocument) (now : Int) (lat lng maxDistanceMeters : Rat)
    (limit : Int) : List Ride :=
  ((((docs.filter (nearbyFilter dist now lat lng maxDistanceMeters)).mergeSort
      (fun a b =>
        dist lat lng a.pickupLat a.pickupLng ≤ dist lat lng b.pickupLat b.pickupLng)).take
    limit.toNat).map toRideDomain)

/-- RideService.GetNearbyRides: delegates to the repository query (the
driver id is only logged). -/
def GetNearbyRides (dist : Rat → Rat → Rat → Rat → Rat)
    (docs : List RideDocument) (now : Int) (driverID : Int)
    (lat lng maxDistance : Rat) (limit : Int) : List Ride :=
  GetNearbyRequestedRides dist docs now lat lng maxDistance limit

/-- C5: every ride returned by GetNearbyRides comes from a stored document
satisfying all three filter conditions: status requested or pending,
updated within the last 5 minutes, and pickup within the requested radius
under the store's distance function. -/
theorem getNearbyRides_filter_sound
    (dist : Rat → Rat → Rat → Rat → Rat) (docs : List RideDocument)
    (now driverID : Int) (lat lng maxDistance : Rat) (limit : Int) (r : Ride)
    (hr : r ∈ GetNearbyRides dist docs now driverID lat lng maxDistance limit) :
    ∃ d ∈ docs, r = toRideDomain d ∧
      (d.status = RideStatusRequested ∨ d.status = RideStatusPendingLiteral) ∧
      now - 5 * 60 ≤ d.updatedAt ∧
      dist lat lng d.pickupLat d.pickupLng ≤ maxDistance := by
  unfold GetNearbyRides GetNearbyRequestedRides at hr
  rcases List.mem_map.mp hr with ⟨d, hdTake, hdr⟩
  have hdSort := List.mem_of_mem_take hdTake
  have hdFilter := List.mem_mergeSort.mp hdSort
  have hdocs := List.mem_filter.mp hdFilter
  refine ⟨d, hdocs.1, hdr.symm, ?_⟩
  have hp := hdocs.2
  unfold nearbyFilter at hp
  simp only [Bool.and_eq_true, Bool.or_eq_true, beq_iff_eq, decide_eq_true_eq] at hp
  exact ⟨hp.1.1, hp.1.2, hp.2⟩

/-- Concrete document for the C5 witness: requested, freshly updated. -/
def nearbyDoc : RideDocument :=
  { rideID := 4, customerID := 6, driverID := none,
    pickupLat := 24, pickupLng := 90, dropoffLat := 25, dropoffLng := 91,
    status := RideStatusRequested, fare := none, requestedAt := 390,
    acceptedAt := none, startedAt := none, completedAt := none,
    cancelledAt := none, createdAt := 390, updatedAt := 400 }

/-- Distance function used by the C5 witness (the theorem holds for every
distance function; zero keeps the arithmetic kernel-reducible). -/
def zeroDist (_ _ _ _ : Rat) : Rat := 0

/-- Witness for getNearbyRides_filter_sound on a one-document store. -/
theorem getNearbyRides_filter_sound_witness :
    ∃ d ∈ [nearbyDoc], toRideDomain nearbyDoc = toRideDomain d ∧
      (d.status = RideStatusRequested ∨ d.status = RideStatusPendingLiteral) ∧
      (400 : Int) - 5 * 60 ≤ d.updatedAt ∧
      zeroDist 24 90 d.pickupLat d.pickupLng ≤ 1000 :=
  getNearbyRides_filter_sound zeroDist [nearbyDoc] 400 9 24 90 1000 50
    (toRideDomain nearbyDoc) (by
      unfold GetNearbyRides GetNearbyRequestedRides
      rw [(by decide :
        List.filter (nearbyFilter zeroDist 400 24 90 1000) [nearbyDoc] = [nearbyDoc])]
      rw [List.mergeSort_singleton nearbyDoc]
      exact List.mem_singleton_self _)

/-! C6: driver presence, OnlineStatusPostgresRepository (online_drivers
table). -/

/-- OnlineDriverModel row of the online_drivers table. -/
structure OnlineDriverModel where
  driverID : Int
  isOnline : Bool
  lastPingAt : Int
  wentOnlineAt : Int
  currentLat : Option Rat
  currentLng : Option Rat
  updatedAt : Int
  deriving Repr, DecidableEq

/-- IsDriverOnline: count rows with driver_id = driverID, is_online = true
and last_ping_at strictly after now minus 2 minutes; online iff the count is
positive. -/
def IsDriverOnline (rows : List OnlineDriverModel) (now driverID : Int) : Bool :=
  let cutoffTime := now - 2 * 60
  let count := rows.countP (fun row =>
    row.driverID == driverID && row.isOnline == true &&
      decide (cutoffTime < row.lastPingAt))
  decide (0 < count)

/-- Modelled from the spec: the spec's own online predicate — a presence row
exists, its online flag is true, and now minus its last-ping timestamp is at
most the 2-minute freshness window — stated for comparison against the
code's IsDriverOnline. -/
def specOnline (rows : List OnlineDriverModel) (now driverID : Int) : Bool :=
  rows.any (fun row =>
    row.driverID == driverID && row.isOnline == true &&
      decide (now - row.lastPingAt ≤ 2 * 60))

/-- Presence row sitting exactly on the 2-minute boundary: last ping at 880,
queried at now = 1000, so now - lastPing = 120 = the window. -/
def boundaryRow : OnlineDriverModel :=
  { driverID := 7, isOnline := true, lastPingAt := 880, wentOnlineAt := 800,
    currentLat := none, currentLng := none, updatedAt := 880 }

/-- C6 (counterexample): at the freshness boundary the code says offline
while the claim's predicate says online — the SQL comparison is
last_ping_at > now - 2min (strict), the claim's is now - lastPing <= 2min. -/
theorem isDriverOnline_boundary_disagrees :
    IsDriverOnline [boundaryRow] 1000 7 = false ∧
    specOnline [boundaryRow] 1000 7 = true := by
  exact ⟨by decide, by decide⟩

/-- C6 (amended): IsDriverOnline is true iff a row for the driver exists
with the online flag set whose last ping is strictly within the 2-minute
window (now - lastPing < 2 minutes); it is a pure read-time function of the
stored rows and now. -/
theorem isDriverOnline_iff (rows : List OnlineDriverModel) (now driverID : Int) :
    IsDriverOnline rows now driverID = true ↔
      ∃ row ∈ rows, row.driverID = driverID ∧ row.isOnline = true ∧
        now - row.lastPingAt < 2 * 60 := by
  unfold IsDriverOnline
  simp only [decide_eq_true_eq, List.countP_pos_iff, Bool.and_eq_true,
    beq_iff_eq]
  constructor
  · rintro ⟨row, hmem, ⟨⟨hid, hon⟩, hping⟩⟩
    exact ⟨row, hmem, hid, hon, by omega⟩
  · rintro ⟨row, hmem, hid, hon, hping⟩
    exact ⟨row, hmem, ⟨⟨hid, hon⟩, by omega⟩⟩

/-! OTP: OTPService (Redis fast path + Postgres audit fallback) and
OTPPostgresRepository over the otp_records table. -/

/-- OTPModel row of the otp_records table. -/
structure OTPModel where
  id : Int
  phone : String
  otp : String
  purpose : String
  isVerified : Bool
  isExpired : Bool
  expiresAt : Int
  verifiedAt : Option Int
  createdAt : Int
  deriving Repr, DecidableEq

/-- Redis keyspace: (key, value, expiry-timestamp) entries; an entry whose
expiry has passed behaves as an absent key (TTL). -/
abbrev RedisKV : Type := List (String × String × Int)

/-- Redis GET at time now, with redis.Nil for missing or expired keys. -/
def redisGet (kv : RedisKV) (now : Int) (key : String) : Option String :=
  match kv.find? (fun e => e.1 == key) with
  | none => none
  | some e => if now < e.2.2 then some e.2.1 else none

/-- Redis SET with an absolute expiry timestamp. -/
def redisSet (kv : RedisKV) (key value : String) (expiresAt : Int) : RedisKV :=
  (key, value, expiresAt) :: kv.filter (fun e => !(e.1 == key))

/-- Redis DEL. -/
def redisDel (kv : RedisKV) (key : String) : RedisKV :=
  kv.filter (fun e => !(e.1 == key))

/-- Fast-path OTP key otp:phone. -/
def otpKey (phone : String) : String := "otp:" ++ phone

/-- State the OTP service operates on: the Redis keyspace plus the
otp_records audit table. -/
structure OTPState where
  kv : RedisKV
  audit : List OTPModel
  deriving Repr, DecidableEq

/-- Row filter of OTPPostgresRepository.VerifyOTP: phone and otp match, not
yet verified, not marked expired, and expires_at after now. -/
def otpMatches (now : Int) (phone otp : String) (m : OTPModel) : Bool :=
  m.phone == phone && m.otp == otp && m.isVerified == false &&
    m.isExpired == false && decide (now < m.expiresAt)

/-- ORDER BY created_at DESC then First: a matching row with maximal
created_at (later rows win ties the way the fold below resolves them). -/
def mostRecentMatch (pred : OTPModel → Bool) : List OTPModel → Option OTPModel
  | [] => none
  | m :: rest =>
      match mostRecentMatch pred rest with
      | none => if pred m then some m else none
      | some best =>
          if pred m && decide (best.createdAt < m.createdAt) then some m
          else some best

/-- OTPPostgresRepository.VerifyOTP: find the most recent matching row; if
none, report false; otherwise mark that row verified and report true. -/
def dbVerifyOTP (now : Int) (audit : List OTPModel) (phone otp : String) :
    Bool × List OTPModel :=
  match mostRecentMatch (otpMatches now phone otp) audit with
  | none => (false, audit)
  | some m =>
      (true, audit.map (fun x =>
        if x.id == m.id then { x with isVerified := true, verifiedAt := some now }
        else x))

/-- Next autoincrement id for otp_records. -/
def auditNextId (audit : List OTPModel) : Int :=
  (audit.map (fun m => m.id)).foldr max 0 + 1

/-- OTPService.SaveOTP: write the code to Redis under otp:phone with a
2-minute TTL and append an unverified audit row with the same expiry. -/
def SaveOTP (now : Int) (s : OTPState) (phone otp purpose : String) : OTPState :=
  { kv := redisSet s.kv (otpKey phone) otp (now + 2 * 60)
    audit := s.audit ++
      [{ id := auditNextId s.audit, phone := phone, otp := otp,
         purpose := purpose, isVerified := false, isExpired := false,
         expiresAt := now + 2 * 60, verifiedAt := none, createdAt := now }] }

/-- OTPService.VerifyOTP: Redis fast path first; on redis.Nil fall back to
the audit store; on a fast-path match delete the key, mark the audit copy
verified (best effort) and report true. -/
def VerifyOTP (now : Int) (s : OTPState) (phone otp : String) :
    Bool × OTPState :=
  match redisGet s.kv now (otpKey phone) with
  | none =>
      let res := dbVerifyOTP now s.audit phone otp
      (res.1, { s with audit := res.2 })
  | some storedOTP =>
      if storedOTP == otp then
        (true, { kv := redisDel s.kv (otpKey phone)
                 audit := (dbVerifyOTP now s.audit phone otp).2 })
      else
        (false, s)

/-- DriverService.RequestOTP (after the driver-by-phone lookup, whose
success is the flag driverFound): generate a code — `draw` stands for the
formatted output of the random generator — override it with the constant
"123456" when the configured environment is "development", then SaveOTP
with purpose driver_login. -/
def RequestOTP (env : String) (driverFound : Bool) (draw : String) (now : Int)
    (s : OTPState) (phone : String) : Except String OTPState :=
  if !driverFound then .error "driver not found"
  else
    let otp := if env == "development" then "123456" else draw
    .ok (SaveOTP now s phone otp "driver_login")

/-- C9: with environment "development" and an existing driver, RequestOTP
stores the constant code "123456" whatever the random generator drew: two
runs with different draws produce identical results, and the result is
exactly the SaveOTP of "123456". -/
theorem requestOTP_development_constant (draw1 draw2 : String) (now : Int)
    (s : OTPState) (phone : String) :
    RequestOTP "development" true draw1 now s phone =
      RequestOTP "development" true draw2 now s phone ∧
    RequestOTP "development" true draw1 now s phone =
      .ok (SaveOTP now s phone "123456" "driver_login") :=
  ⟨rfl, rfl⟩

/-! C7: single use of OTP codes. -/

/-- Empty OTP state. -/
def otpS0 : OTPState := { kv := [], audit := [] }

/-- State after a first development-mode RequestOTP for phone 0100 at t=100. -/
def otpS1 : OTPState := SaveOTP 100 otpS0 "0100" "123456" "driver_login"

/-- State after a second development-mode RequestOTP for the same phone at
t=110 (RequestOTP never invalidates the previous code, so a second
unverified audit row with the same code now exists). -/
def otpS2 : OTPState := SaveOTP 110 otpS1 "0100" "123456" "driver_login"

/-- C7 (counterexample): two development-mode RequestOTP calls (different
random draws, same stored code "123456") leave two unverified audit rows; a
first Verify succeeds on the fast path, deletes the key and marks only the
most recent audit row, and a second Verify with the same code then succeeds
again through the durable fallback on the older row. -/
theorem verifyOTP_second_call_succeeds :
    RequestOTP "development" true "742190" 100 otpS0 "0100" = .ok otpS1 ∧
    RequestOTP "development" true "381005" 110 otpS1 "0100" = .ok otpS2 ∧
    (VerifyOTP 120 otpS2 "0100" "123456").1 = true ∧
    (VerifyOTP 125 (VerifyOTP 120 otpS2 "0100" "123456").2 "0100" "123456").1
      = true := by
  refine ⟨rfl, rfl, ?_, ?_⟩ <;> decide

theorem mostRecentMatch_some_mem {pred : OTPModel → Bool} :
    ∀ {l : List OTPModel} {m : OTPModel},
      mostRecentMatch pred l = some m → m ∈ l ∧ pred m = true := by
  intro l
  induction l with
  | nil => intro m h; simp [mostRecentMatch] at h
  | cons x rest ih =>
      intro m h
      unfold mostRecentMatch at h
      split at h
      · split at h
        · next hp =>
            cases h
            exact ⟨List.mem_cons_self x rest, hp⟩
        · exact absurd h (by simp)
      · next best hrest =>
          split at h
          · next hc =>
              cases h
              simp only [Bool.and_eq_true] at hc
              exact ⟨List.mem_cons_self x rest, hc.1⟩
          · cases h
            obtain ⟨hmem, hpred⟩ := ih hrest
            exact ⟨List.mem_cons_of_mem x hmem, hpred⟩

theorem mostRecentMatch_none_all {pred : OTPModel → Bool} :
    ∀ {l : List OTPModel}, mostRecentMatch pred l = none →
      ∀ m ∈ l, pred m = false := by
  intro l
  induction l with
  | nil => intro _ m hm; simp at hm
  | cons x rest ih =>
      intro h m hm
      unfold mostRecentMatch at h
      split at h
      · next hrest =>
          split at h
          · exact absurd h (by simp)
          · next hp =>
              rcases List.mem_cons.mp hm with hmx | hmr
              · rw [hmx]
                revert hp
                cases pred x <;> simp
              · exact ih hrest m hmr
      · split at h
        · exact absurd h (by simp)
        · exact absurd h (by simp)

/-- A row matching at a later time also matches at an earlier time (only the
expiry comparison depends on now). -/
theorem otpMatches_mono {t1 t2 : Int} (hle : t1 ≤ t2) {phone otp : String}
    {m : OTPModel} (h : otpMatches t2 phone otp m = true) :
    otpMatches t1 phone otp m = true := by
  unfold otpMatches at h ⊢
  simp only [Bool.and_eq_true, decide_eq_true_eq] at h ⊢
  exact ⟨⟨⟨⟨h.1.1.1.1, h.1.1.1.2⟩, h.1.1.2⟩, h.1.2⟩, by omega⟩

/-- Two distinct members both satisfying a predicate force a countP of at
least two. -/
theorem countP_ge_two {l : List OTPModel} {a b : OTPModel}
    {p : OTPModel → Bool} (ha : a ∈ l) (hb : b ∈ l) (hne : a ≠ b)
    (hpa : p a = true) (hpb : p b = true) : 2 ≤ l.countP p := by
  have hperm : l.Perm (a :: l.erase a) := List.perm_cons_erase ha
  have hbe : b ∈ l.erase a := (List.mem_erase_of_ne (Ne.symm hne)).mpr hb
  have h1 : 0 < (l.erase a).countP p :=
    List.countP_pos_iff.mpr ⟨b, hbe, hpb⟩
  have h2 : l.countP p = (a :: l.erase a).countP p := hperm.countP_eq p
  have h3 : (a :: l.erase a).countP p = (l.erase a).countP p + 1 := by
    rw [List.countP_cons, hpa]
    simp
  omega

/-- After a dbVerifyOTP pass over an audit table holding at most one
matching row, a later dbVerifyOTP for the same phone and code finds
nothing. -/
theorem dbVerifyOTP_after {t1 t2 : Int} (hle : t1 ≤ t2)
    (audit : List OTPModel) (phone otp : String)
    (hcount : audit.countP (otpMatches t1 phone otp) ≤ 1) :
    (dbVerifyOTP t2 (dbVerifyOTP t1 audit phone otp).2 phone otp).1 = false := by
  unfold dbVerifyOTP
  cases hf : mostRecentMatch (otpMatches t1 phone otp) audit with
  | none =>
      cases h2 : mostRecentMatch (otpMatches t2 phone otp) audit with
      | none => rfl
      | some m =>
          obtain ⟨hm, hpm⟩ := mostRecentMatch_some_mem h2
          have hall := mostRecentMatch_none_all hf m hm
          rw [otpMatches_mono hle hpm] at hall
          exact absurd hall (by simp)
  | some f =>
      obtain ⟨hfmem, hpf⟩ := mostRecentMatch_some_mem hf
      cases h2 : mostRecentMatch (otpMatches t2 phone otp)
          (audit.map fun x =>
            if x.id == f.id then
              { x with isVerified := true, verifiedAt := some t1 }
            else x) with
      | none => rfl
      | some m =>
          obtain ⟨hm, hpm⟩ := mostRecentMatch_some_mem h2
          obtain ⟨x, hx, hxm⟩ := List.mem_map.mp hm
          by_cases hid : (x.id == f.id) = true
          · rw [if_pos hid] at hxm
            rw [← hxm] at hpm
            unfold otpMatches at hpm
            simp at hpm
          · rw [if_neg hid] at hxm
            rw [← hxm] at hpm
            have hpx1 : otpMatches t1 phone otp x = true := otpMatches_mono hle hpm
            have hxf : x ≠ f := by
              intro he
              rw [he] at hid
              simp at hid
            have h2le : 2 ≤ audit.countP (otpMatches t1 phone otp) :=
              countP_ge_two hx hfmem hxf hpx1 hpf
            omega

/-- The deleted key reads as absent at any time. -/
theorem redisDel_get (kv : RedisKV) (t : Int) (key : String) :
    redisGet (redisDel kv key) t key = none := by
  unfold redisGet redisDel
  cases hfind : (kv.filter fun e => !(e.1 == key)).find? (fun e => e.1 == key) with
  | none => rfl
  | some e =>
      have hpe := List.find?_some hfind
      have hmem := List.mem_of_find?_eq_some hfind
      have hfe := (List.mem_filter.mp hmem).2
      rw [hpe] at hfe
      exact absurd hfe (by simp)

/-- A key absent (or expired) at t1 stays absent at any later t2. -/
theorem redisGet_none_mono {kv : RedisKV} {t1 t2 : Int} {key : String}
    (hle : t1 ≤ t2) (h : redisGet kv t1 key = none) :
    redisGet kv t2 key = none := by
  unfold redisGet at h ⊢
  split at h
  · rfl
  · next e hfind =>
      split at h
      · exact absurd h (by simp)
      · next hlt => rw [if_neg (by omega : ¬ t2 < e.2.2)]

/-- VerifyOTP when the fast path misses: the durable fallback decides. -/
theorem VerifyOTP_redis_none {now : Int} {s : OTPState} {phone otp : String}
    (h : redisGet s.kv now (otpKey phone) = none) :
    VerifyOTP now s phone otp =
      ((dbVerifyOTP now s.audit phone otp).1,
        { s with audit := (dbVerifyOTP now s.audit phone otp).2 }) := by
  unfold VerifyOTP
  rw [h]

/-- VerifyOTP when the fast path hits and the code matches. -/
theorem VerifyOTP_redis_hit {now : Int} {s : OTPState} {phone otp stored : String}
    (h : redisGet s.kv now (otpKey phone) = some stored)
    (he : (stored == otp) = true) :
    VerifyOTP now s phone otp =
      (true, { kv := redisDel s.kv (otpKey phone)
               audit := (dbVerifyOTP now s.audit phone otp).2 }) := by
  unfold VerifyOTP
  simp only [h]
  rw [if_pos he]

/-- VerifyOTP when the fast path hits but the code differs. -/
theorem VerifyOTP_redis_miss {now : Int} {s : OTPState} {phone otp stored : String}
    (h : redisGet s.kv now (otpKey phone) = some stored)
    (he : (stored == otp) = false) :
    VerifyOTP now s phone otp = (false, s) := by
  unfold VerifyOTP
  simp only [h]
  rw [if_neg (by simp [he])]

/-- C7 (amended): after a successful Verify, a second Verify with the same
code fails, provided at most one unverified, unexpired audit row matched the
code at the time of the first call (two development-mode issues of the same
code break this side condition and defeat single use, see
the duplicate-issue evaluation above). -/
theorem verifyOTP_single_use (t1 t2 : Int) (s : OTPState) (phone otp : String)
    (hle : t1 ≤ t2)
    (hcount : s.audit.countP (otpMatches t1 phone otp) ≤ 1)
    (hfirst : (VerifyOTP t1 s phone otp).1 = true) :
    (VerifyOTP t2 (VerifyOTP t1 s phone otp).2 phone otp).1 = false := by
  cases hred : redisGet s.kv t1 (otpKey phone) with
  | none =>
      rw [VerifyOTP_redis_none hred]
      dsimp only
      have hred2 : redisGet
          ({ s with audit := (dbVerifyOTP t1 s.audit phone otp).2 } : OTPState).kv
          t2 (otpKey phone) = none :=
        redisGet_none_mono hle hred
      rw [VerifyOTP_redis_none hred2]
      exact dbVerifyOTP_after hle s.audit phone otp hcount
  | some storedOTP =>
      by_cases hsto : (storedOTP == otp) = true
      · rw [VerifyOTP_redis_hit hred hsto]
        dsimp only
        have hdel : redisGet
            ({ kv := redisDel s.kv (otpKey phone),
               audit := (dbVerifyOTP t1 s.audit phone otp).2 } : OTPState).kv
            t2 (otpKey phone) = none :=
          redisDel_get s.kv t2 (otpKey phone)
        rw [VerifyOTP_redis_none hdel]
        exact dbVerifyOTP_after hle s.audit phone otp hcount
      · have hf : (storedOTP == otp) = false := by
          revert hsto
          cases storedOTP == otp <;> simp
        rw [VerifyOTP_redis_miss hred hf] at hfirst
        exact absurd hfirst (by simp)

/-- OTP state with a single outstanding code for the C7 witness. -/
def otpSingleState : OTPState :=
  { kv := [("otp:0177", "654321", 200)]
    audit := [{ id := 1, phone := "0177", otp := "654321",
                purpose := "driver_login", isVerified := false,
                isExpired := false, expiresAt := 200, verifiedAt := none,
                createdAt := 80 }] }

/-- Witness for verifyOTP_single_use: one outstanding code, first Verify at
t=50 succeeds, second at t=60 fails. -/
theorem verifyOTP_single_use_witness :
    (50 : Int) ≤ 60 ∧
    otpSingleState.audit.countP (otpMatches 50 "0177" "654321") ≤ 1 ∧
    (VerifyOTP 50 otpSingleState "0177" "654321").1 = true ∧
    (VerifyOTP 60 (VerifyOTP 50 otpSingleState "0177" "654321").2
      "0177" "654321").1 = false :=
  ⟨by decide, by decide, by decide,
    verifyOTP_single_use 50 60 otpSingleState "0177" "654321" (by decide)
      (by decide) (by decide)⟩

/-! C8: session validation, pkg/middleware/auth.go (AuthMiddleware.Auth).
JWT signature/expiry verification is the external primitive jwtValidate; the
Redis session keyspace is the function kv.  The Go strings.Split on a
single space is modelled over the character list. -/

/-- Claims carried by a verified JWT. -/
structure JWTClaims where
  userID : Int
  role : String
  deriving Repr, DecidableEq

/-- Outcome of the middleware: reject with a message, or admit the request
with the principal set in the context. -/
inductive AuthOutcome where
  | unauthorized (msg : String)
  | authorized (userID : Int) (role : String)
  deriving Repr, DecidableEq

/-- strings.Split(authHeader, " "). -/
def authHeaderParts (authHeader : String) : List String :=
  ((authHeader.toList).splitOn ' ').map (fun cs => String.mk cs)

/-- Session pin key jwt:user:id. -/
def sessionKey (userID : Int) : String := "jwt:user:" ++ toString userID

/-- AuthMiddleware.Auth: header present, Bearer format, signature valid,
and the pinned value under the principal's key equal to the presented
token. -/
def Auth (jwtValidate : String → Option JWTClaims)
    (kv : String → Option String) (authHeader : String) : AuthOutcome :=
  if authHeader = "" then .unauthorized "missing authorization header"
  else
    let parts := authHeaderParts authHeader
    if parts.length ≠ 2 ∨ parts.getD 0 "" ≠ "Bearer" then
      .unauthorized "invalid authorization header format"
    else
      let token := parts.getD 1 ""
      match jwtValidate token with
      | none => .unauthorized "invalid token"
      | some claims =>
          match kv (sessionKey claims.userID) with
          | none => .unauthorized "token expired or logged out"
          | some storedToken =>
              if storedToken ≠ token then .unauthorized "token mismatch"
              else .authorized claims.userID claims.role

/-- Revocation: the pinned token under the principal's key is deleted from
the key-value store. -/
def Revoke (kv : String → Option String) (userID : Int) :
    String → Option String :=
  fun k => if k = sessionKey userID then none else kv k

/-- C8: for a well-formed Bearer header whose token passes signature
verification, (a) after Revoke the middleware rejects with "token expired
or logged out", and (b) the middleware admits the request iff the value
stored under the principal's key equals the presented token. -/
theorem auth_requires_pinned_token
    (jwtValidate : String → Option JWTClaims) (kv : String → Option String)
    (authHeader token : String) (claims : JWTClaims)
    (hne : authHeader ≠ "")
    (hparts : authHeaderParts authHeader = ["Bearer", token])
    (hjwt : jwtValidate token = some claims) :
    (Auth jwtValidate (Revoke kv claims.userID) authHeader =
        .unauthorized "token expired or logged out") ∧
    (Auth jwtValidate kv authHeader = .authorized claims.userID claims.role ↔
      kv (sessionKey claims.userID) = some token) := by
  constructor
  · simp [Auth, Revoke, hne, hparts, hjwt]
  · cases hkv : kv (sessionKey claims.userID) with
    | none => simp [Auth, hne, hparts, hjwt, hkv]
    | some stored =>
        by_cases hst : stored = token
        · subst hst
          simp [Auth, hne, hparts, hjwt, hkv]
        · simp [Auth, hne, hparts, hjwt, hkv, hst]

/-- Concrete JWT verifier for the C8 witness: accepts exactly the token
tokA as user 42 in role driver. -/
def jwtValidateW : String → Option JWTClaims :=
  fun t => if t = "tokA" then some { userID := 42, role := "driver" } else none

/-- Concrete session store for the C8 witness: pins tokA for user 42. -/
def sessionKvW : String → Option String :=
  fun k => if k = sessionKey 42 then some "tokA" else none

/-- Witness for auth_requires_pinned_token with the concrete verifier and
store. -/
theorem auth_requires_pinned_token_witness :
    (Auth jwtValidateW (Revoke sessionKvW 42) "Bearer tokA" =
        .unauthorized "token expired or logged out") ∧
    (Auth jwtValidateW sessionKvW "Bearer tokA" = .authorized 42 "driver" ↔
      sessionKvW (sessionKey 42) = some "tokA") :=
  auth_requires_pinned_token jwtValidateW sessionKvW "Bearer tokA" "tokA"
    { userID := 42, role := "driver" } (by decide) (by decide) rfl

/-! C10: RideHandler.GetNearbyRides, ride_handler.go — the request
validation that rejects zero coordinates. -/

/-- GetNearbyRidesRequest body. -/
structure GetNearbyRidesRequest where
  lat : Rat
  lng : Rat
  maxDistance : Rat
  limit : Int
  deriving Repr, DecidableEq

/-- HTTP-level outcome of the handler. -/
inductive HandlerResult where
  | unauthorized (msg : String)
  | badRequest (msg : String)
  | okRides (rides : List Ride)
  deriving Repr, DecidableEq

/-- RideHandler.GetNearbyRides: context auth lookups, request binding
(`none` models a c.Bind failure), the zero-coordinate validation, the
defaulting and clamping of max_distance and limit, then the service
search. -/
def GetNearbyRidesHandler (dist : Rat → Rat → Rat → Rat → Rat)
    (docs : List RideDocument) (now : Int)
    (ctxUserID : Option Int) (ctxRole : Option String)
    (body : Option GetNearbyRidesRequest) : HandlerResult :=
  match ctxUserID with
  | none => .unauthorized "missing driver ID in context"
  | some driverID =>
      match ctxRole with
      | none => .unauthorized "missing role in context"
      | some role =>
          if role ≠ "driver" then .unauthorized "invalid role in context"
          else
            match body with
            | none => .badRequest "invalid request body"
            | some req =>
                if req.lat = 0 ∨ req.lng = 0 then
                  .badRequest "lat and lng are required"
                else
                  let maxDistance :=
                    if req.maxDistance = 0 then 10000 else req.maxDistance
                  let limit0 := if req.limit = 0 then 50 else req.limit
                  let limit1 := if limit0 > 100 then 100 else limit0
                  let limit2 := if limit1 < 1 then 1 else limit1
                  .okRides (GetNearbyRides dist docs now driverID req.lat
                    req.lng maxDistance limit2)

/-- C10: any authenticated driver request with latitude exactly 0 or
longitude exactly 0 is rejected with the validation error "lat and lng are
required" and the search is never reached. -/
theorem getNearbyRidesHandler_zero_coordinate_rejected
    (dist : Rat → Rat → Rat → Rat → Rat) (docs : List RideDocument)
    (now driverID : Int) (req : GetNearbyRidesRequest)
    (hzero : req.lat = 0 ∨ req.lng = 0) :
    GetNearbyRidesHandler dist docs now (some driverID) (some "driver")
      (some req) = .badRequest "lat and lng are required" := by
  unfold GetNearbyRidesHandler
  dsimp only
  rw [if_neg (not_not_intro rfl), if_pos hzero]

/-- Witness for the zero-coordinate rejection at latitude 0, longitude 90
(a geographically valid point on the equator). -/
theorem getNearbyRidesHandler_zero_coordinate_rejected_witness :
    GetNearbyRidesHandler zeroDist [] 0 (some 1) (some "driver")
      (some { lat := 0, lng := 90, maxDistance := 5000, limit := 10 }) =
      .badRequest "lat and lng are required" :=
  getNearbyRidesHandler_zero_coordinate_rejected zeroDist [] 0 1
    { lat := 0, lng := 90, maxDistance := 5000, limit := 10 }
    (Or.inl rfl)

end RideEngine
